import Mathlib

/-!
Shallow embedding of the Zachtek WSPR desktop serial-protocol codec
(`src/lib.rs`): the per-code field decoders, the response registry
dispatch in `process_line`, the outbound query writer `write_code`, and
the byte-at-a-time line assembly of `ZachtekDevice::read_response`.

Bytes are modelled as `Nat` (the Rust code works on `u8` slices; every
byte of a real stream is `< 256`, and the decoders only compare bytes
against constants or digit ranges, so the embedding is faithful on all
byte inputs).  Fallible Rust functions returning `anyhow::Result` are
modelled as `Except Err _` with one `Err` constructor per distinct
`bail!`/`ensure!` site.  `process_line` can panic in Rust (an
out-of-bounds slice), so it returns a `PResult` with an explicit
`panic` outcome.
-/

/-- Byte values of a string literal, for readable frame constants. -/
def strBytes (s : String) : List Nat := s.toList.map Char.toNat

/-- One constructor per distinct failure site in `src/lib.rs`. -/
inductive Err
  /-- `bail!("Empty line")` in `process_line`. -/
  | emptyLine
  /-- `ensure!(s.len() >= 5)` in `process_line`. -/
  | frameTooShort
  /-- `AsciiStr::from_ascii` failure in `ascii_bytes_to_string`. -/
  | nonAscii
  /-- an `ensure!` on the argument length (`parse_enum`,
      `parse_enum_from_number`, `BandTxEnable::parse`,
      `LowPassFilterFactory::parse`, `TransmitterStatus::parse`). -/
  | wrongLength
  /-- `bail!("Failed to parse enum from ...")` in `parse_enum`. -/
  | unrecognizedEnumByte
  /-- `bail!("Failed to parse enum from ...")` in `parse_enum_from_number`. -/
  | unrecognizedEnumValue
  /-- `ensure!(!args.is_empty())` in `parse_number`. -/
  | emptyArgs
  /-- `bail!("Failed to parse number from ...")` in `parse_number`
      (also covers the direct `.parse()?` in `MicrocontrollerVoltage`). -/
  | badNumber
  /-- `bail!("Bad args for OBD ...")` in `BandTxEnable::parse`. -/
  | badFlag
  /-- `bail!("Bad time slot ...")` in `TimeSlotOption::parse`. -/
  | badTimeSlot
  /-- `bail!("bad char ...")` in `TransmitterStatus::parse`. -/
  | badChar
  /-- `bail!("unknown response ...")`: the catch-all arm of the
      registry match in `process_line`. -/
  | unknownCode
  /-- read timeout in `read_response` (input exhausted). -/
  | timeout
deriving DecidableEq, Repr

/-! ### Enumerated value families (the `#[repr(u8)]` enums) -/

inductive Mode | Sig | Wspr | Idle
deriving DecidableEq, Repr

/-- Byte table of `Mode` (`TryFromPrimitive`): `S`, `W`, `N`. -/
def Mode.ofByte (b : Nat) : Option Mode :=
  if b = 83 then some .Sig        -- b'S'
  else if b = 87 then some .Wspr  -- b'W'
  else if b = 78 then some .Idle  -- b'N'
  else none

inductive FilterBank | A | B | C | D
deriving DecidableEq, Repr

/-- Byte table of `FilterBank`: `A`..`D`. -/
def FilterBank.ofByte (b : Nat) : Option FilterBank :=
  if b = 65 then some .A
  else if b = 66 then some .B
  else if b = 67 then some .C
  else if b = 68 then some .D
  else none

inductive Reference | External | Internal
deriving DecidableEq, Repr

/-- Byte table of `Reference`: `E`, `I`. -/
def Reference.ofByte (b : Nat) : Option Reference :=
  if b = 69 then some .External
  else if b = 73 then some .Internal
  else none

inductive LocationSource | Gps | Manual
deriving DecidableEq, Repr

/-- Byte table of `LocationSource`: `G`, `M`. -/
def LocationSource.ofByte (b : Nat) : Option LocationSource :=
  if b = 71 then some .Gps
  else if b = 77 then some .Manual
  else none

inductive LocatorPrecision | Maidenhead4 | Maidenhead6
deriving DecidableEq, Repr

/-- Byte table of `LocatorPrecision`: `4`, `6`. -/
def LocatorPrecision.ofByte (b : Nat) : Option LocatorPrecision :=
  if b = 52 then some .Maidenhead4
  else if b = 54 then some .Maidenhead6
  else none

inductive PowerEncoding | Normal | Altitude
deriving DecidableEq, Repr

/-- Byte table of `PowerEncoding`: `N`, `A`. -/
def PowerEncoding.ofByte (b : Nat) : Option PowerEncoding :=
  if b = 78 then some .Normal
  else if b = 65 then some .Altitude
  else none

inductive TimeSlot | TenMinute | TwentyMinute | BandCoordinated | NoSchedule | Tracker
deriving DecidableEq, Repr

/-- Rust `PrefixSuffix` (constructors renamed from `Prefix`, `Suffix`,
    `None` to fit Lean naming). -/
inductive PrefixSuffix | usePre | useSuf | useNone
deriving DecidableEq, Repr

/-- Byte table of `PrefixSuffix`: `P`, `S`, `N`. -/
def PrefixSuffix.ofByte (b : Nat) : Option PrefixSuffix :=
  if b = 80 then some .usePre
  else if b = 83 then some .useSuf
  else if b = 78 then some .useNone
  else none

inductive Constellation | GPSOnly | BeiDouOnly | All
deriving DecidableEq, Repr

/-- Byte table of `Constellation`: `G`, `B`, `A`. -/
def Constellation.ofByte (b : Nat) : Option Constellation :=
  if b = 71 then some .GPSOnly
  else if b = 66 then some .BeiDouOnly
  else if b = 65 then some .All
  else none

inductive Band
  | B2190m | B630m | B160m | B80m | B40m | B30m | B20m | B17m
  | B15m | B12m | B10m | B6m | B4m | B2m | B70Cm | B23Cm
  | NoFilter | Open
deriving DecidableEq, Repr

/-- Number table of `Band` (`TryFromPrimitive` on the `#[repr(u8)]`
    discriminants 0..15, 98, 99). -/
def Band.ofNumber (n : Nat) : Option Band :=
  if n = 0 then some .B2190m
  else if n = 1 then some .B630m
  else if n = 2 then some .B160m
  else if n = 3 then some .B80m
  else if n = 4 then some .B40m
  else if n = 5 then some .B30m
  else if n = 6 then some .B20m
  else if n = 7 then some .B17m
  else if n = 8 then some .B15m
  else if n = 9 then some .B12m
  else if n = 10 then some .B10m
  else if n = 11 then some .B6m
  else if n = 12 then some .B4m
  else if n = 13 then some .B2m
  else if n = 14 then some .B70Cm
  else if n = 15 then some .B23Cm
  else if n = 98 then some .NoFilter
  else if n = 99 then some .Open
  else none

inductive GpsLock | Locked | Unlocked
deriving DecidableEq, Repr

/-- Byte table of `GpsLock`: `T`, `F`. -/
def GpsLock.ofByte (b : Nat) : Option GpsLock :=
  if b = 84 then some .Locked
  else if b = 70 then some .Unlocked
  else none

/-! ### Numeric parsing helpers -/

/-- ASCII decimal digit. -/
def isDigit (d : Nat) : Bool := 48 ≤ d && d ≤ 57

/-- The optional leading `+` accepted by Rust `str::parse` for
    unsigned integers. -/
def stripPlus (s : List Nat) : List Nat :=
  match s with
  | b :: rest => if b = 43 then rest else b :: rest  -- b'+'
  | [] => []

/-- Rust `str::parse::<uN>` without the width bound: an optional
    leading `+`, then one or more ASCII digits. -/
def rustParseNat (s : List Nat) : Option Nat :=
  if stripPlus s ≠ [] ∧ (stripPlus s).all isDigit then
    some ((stripPlus s).foldl (fun a d => 10 * a + (d - 48)) 0)
  else none

/-- Rust `str::parse::<uN>` for an `N`-bit unsigned integer type:
    overflow is a parse failure. -/
def parseUnsigned (width : Nat) (s : List Nat) : Option Nat :=
  match rustParseNat s with
  | some n => if n < 2 ^ width then some n else none
  | none => none

/-- `ascii_bytes_to_string`: `AsciiStr::from_ascii` fails on any byte
    outside 7-bit ASCII; the text is kept as its byte list. -/
def ascii_bytes_to_string (bytes : List Nat) : Except Err (List Nat) :=
  if bytes.all (· < 128) then .ok bytes else .error .nonAscii

/-- `parse_number::<T>`: `ensure!(!args.is_empty())`, convert to an
    ASCII string, parse as an unsigned integer of the given width. -/
def parse_number (width : Nat) (args : List Nat) : Except Err Nat :=
  if args.isEmpty then .error .emptyArgs
  else if args.all (· < 128) then
    match parseUnsigned width args with
    | some n => .ok n
    | none => .error .badNumber
  else .error .nonAscii

/-- The `if let Ok(e) = T::try_from(first_byte)` step of `parse_enum`:
    a table hit is `Ok`, a miss is the enum-parse `bail!`. -/
def enumFromByte {T : Type} (o : Option T) : Except Err T :=
  match o with
  | some e => .ok e
  | none => .error .unrecognizedEnumByte

/-- `parse_enum::<T>`: `ensure!(args.len() == 1)`, then `T::try_from`
    on the single byte. -/
def parse_enum {T : Type} (ofByte : Nat → Option T) (args : List Nat) : Except Err T :=
  match args with
  | [b] => enumFromByte (ofByte b)
  | _ => .error .wrongLength

/-- The `if let Ok(e) = T::try_from(n)` step of
    `parse_enum_from_number`: a table hit is `Ok`, a miss is the
    enum-parse `bail!`. -/
def enumFromValue {T : Type} (o : Option T) : Except Err T :=
  match o with
  | some e => .ok e
  | none => .error .unrecognizedEnumValue

/-- `parse_enum_from_number::<T>`:
    `ensure!(!args.is_empty() && args.len() <= 3)`, parse the args as a
    `u8` decimal, then `T::try_from` on the value. -/
def parse_enum_from_number {T : Type} (ofNat : Nat → Option T) (args : List Nat) :
    Except Err T :=
  if args.isEmpty ∨ 3 < args.length then .error .wrongLength
  else
    match parse_number 8 args with
    | .error e => .error e
    | .ok n => enumFromValue (ofNat n)

/-! ### Response payload structures (one per 3-letter code) -/

structure CurrentModeCommand where
  mode : Mode
deriving DecidableEq, Repr

structure CurrentReferenceCommand where
  reference : Reference
deriving DecidableEq, Repr

/-- Rust stores `duration : Duration` built with
    `Duration::from_secs(60 * minutes as u64)`; we keep the exact
    number of seconds. -/
structure TxPauseOption where
  duration_secs : Nat
deriving DecidableEq, Repr

structure StartModeOption where
  mode : Mode
deriving DecidableEq, Repr

structure BandTxEnable where
  band : Band
  enabled : Bool
deriving DecidableEq, Repr

structure LocationSourceOption where
  location_source : LocationSource
deriving DecidableEq, Repr

structure LocatorPrecisionOption where
  locator_precision : LocatorPrecision
deriving DecidableEq, Repr

structure PowerEncodingOption where
  power_encoding : PowerEncoding
deriving DecidableEq, Repr

structure TimeSlotOption where
  time_slot : TimeSlot
deriving DecidableEq, Repr

structure PrefixSuffixOption where
  prefix_suffix : PrefixSuffix
deriving DecidableEq, Repr

structure ConstellationOption where
  constellation : Constellation
deriving DecidableEq, Repr

structure CallSignData where
  call_sign : List Nat
deriving DecidableEq, Repr

structure SuffixData where
  data_suffix : List Nat
deriving DecidableEq, Repr

/-- Field renamed from Rust `data_prefix`. -/
structure PrefixData where
  dataPre : List Nat
deriving DecidableEq, Repr

structure Locator4Data where
  locator_4 : List Nat
deriving DecidableEq, Repr

structure Locator6Data where
  locator_6 : List Nat
deriving DecidableEq, Repr

structure PowerData where
  dbm : Nat
deriving DecidableEq, Repr

structure NameData where
  name : List Nat
deriving DecidableEq, Repr

/-- Rust stores `hertz : f32 = centihertz as f32 / 100.`; we keep the
    exact parsed centihertz value (the division is lossy display-side
    scaling). -/
structure GeneratorFrequencyData where
  centihertz : Nat
deriving DecidableEq, Repr

structure ExternalReferenceFrequencyData where
  hertz : Nat
deriving DecidableEq, Repr

structure ProductModelNumberFactory where
  model : Nat
deriving DecidableEq, Repr

structure HardwareVersionFactory where
  hardware_version : List Nat
deriving DecidableEq, Repr

structure HardwareRevisionFactory where
  hardware_version : List Nat
deriving DecidableEq, Repr

structure SoftwareVersionFactory where
  software_version : List Nat
deriving DecidableEq, Repr

structure SoftwareRevisionFactory where
  software_revision : List Nat
deriving DecidableEq, Repr

structure ReferenceOscillatorFrequencyFactory where
  hertz : Nat
deriving DecidableEq, Repr

structure LowPassFilterFactory where
  filter_bank : FilterBank
  band : Band
deriving DecidableEq, Repr

structure Locator4GPS where
  maidenhead_4 : List Nat
deriving DecidableEq, Repr

structure Locator6GPS where
  maidenhead_6 : List Nat
deriving DecidableEq, Repr

structure TimeGPS where
  hhmmss : List Nat
deriving DecidableEq, Repr

structure LockStatusGPS where
  lock : GpsLock
deriving DecidableEq, Repr

structure SatelliteInfoGPS where
  satellite_info : List Nat
deriving DecidableEq, Repr

/-- Rust stores `hertz : f32 = centihertz as f32 / 100.`; we keep the
    exact parsed centihertz value. -/
structure TransmitterFrequency where
  centihertz : Nat
deriving DecidableEq, Repr

/-- Field renamed from Rust `on` (a reserved word in Lean). -/
structure TransmitterStatus where
  is_on : Bool
deriving DecidableEq, Repr

structure MicrocontrollerPause where
deriving DecidableEq, Repr

structure MicrocontrollerInfo where
  info : List Nat
deriving DecidableEq, Repr

structure LowPassFilterSet where
  filter_bank : FilterBank
deriving DecidableEq, Repr

/-- Rust stores `voltage : f32 = millivolts as f32 / 1000.`; we keep
    the exact parsed millivolts value. -/
structure MicrocontrollerVoltage where
  millivolts : Nat
deriving DecidableEq, Repr

structure TransmitterCurrentBand where
  band : Band
deriving DecidableEq, Repr

structure TransmitterWSPRSymbol where
  something : List Nat
deriving DecidableEq, Repr

structure TransmitterBandCycleComplete where
deriving DecidableEq, Repr

/-- The closed sum of decoded responses (`enum Response`). -/
inductive Response
  | CurrentModeCommand (v : CurrentModeCommand)
  | CurrentReferenceCommand (v : CurrentReferenceCommand)
  | TxPauseOption (v : TxPauseOption)
  | StartModeOption (v : StartModeOption)
  | BandTxEnable (v : BandTxEnable)
  | LocationSourceOption (v : LocationSourceOption)
  | LocatorPrecisionOption (v : LocatorPrecisionOption)
  | PowerEncodingOption (v : PowerEncodingOption)
  | TimeSlotOption (v : TimeSlotOption)
  | PrefixSuffixOption (v : PrefixSuffixOption)
  | ConstellationOption (v : ConstellationOption)
  | CallSignData (v : CallSignData)
  | SuffixData (v : SuffixData)
  | PrefixData (v : PrefixData)
  | Locator4Data (v : Locator4Data)
  | Locator6Data (v : Locator6Data)
  | PowerData (v : PowerData)
  | NameData (v : NameData)
  | GeneratorFrequencyData (v : GeneratorFrequencyData)
  | ExternalReferenceFrequencyData (v : ExternalReferenceFrequencyData)
  | ProductModelNumberFactory (v : ProductModelNumberFactory)
  | HardwareVersionFactory (v : HardwareVersionFactory)
  | HardwareRevisionFactory (v : HardwareRevisionFactory)
  | SoftwareVersionFactory (v : SoftwareVersionFactory)
  | SoftwareRevisionFactory (v : SoftwareRevisionFactory)
  | ReferenceOscillatorFrequencyFactory (v : ReferenceOscillatorFrequencyFactory)
  | LowPassFilterFactory (v : LowPassFilterFactory)
  | Locator4GPS (v : Locator4GPS)
  | Locator6GPS (v : Locator6GPS)
  | TimeGPS (v : TimeGPS)
  | LockStatusGPS (v : LockStatusGPS)
  | SatelliteInfoGPS (v : SatelliteInfoGPS)
  | TransmitterFrequency (v : TransmitterFrequency)
  | TransmitterStatus (v : TransmitterStatus)
  | MicrocontrollerPause (v : MicrocontrollerPause)
  | MicrocontrollerInfo (v : MicrocontrollerInfo)
  | LowPassFilterSet (v : LowPassFilterSet)
  | MicrocontrollerVoltage (v : MicrocontrollerVoltage)
  | TransmitterCurrentBand (v : TransmitterCurrentBand)
  | TransmitterWSPRSymbol (v : TransmitterWSPRSymbol)
  | TransmitterBandCycleComplete (v : TransmitterBandCycleComplete)
deriving DecidableEq, Repr

/-! ### The 3-byte codes (`pub const CODE`) -/

def CurrentModeCommand.CODE : List Nat := strBytes ("CCM")

def CurrentReferenceCommand.CODE : List Nat := strBytes ("CCR")

def TxPauseOption.CODE : List Nat := strBytes ("OTP")

def StartModeOption.CODE : List Nat := strBytes ("OSM")

def BandTxEnable.CODE : List Nat := strBytes ("OBD")

def LocationSourceOption.CODE : List Nat := strBytes ("OLC")

def LocatorPrecisionOption.CODE : List Nat := strBytes ("OLP")

def PowerEncodingOption.CODE : List Nat := strBytes ("OPW")

def TimeSlotOption.CODE : List Nat := strBytes ("OTS")

def PrefixSuffixOption.CODE : List Nat := strBytes ("OPS")

def ConstellationOption.CODE : List Nat := strBytes ("OSC")

def CallSignData.CODE : List Nat := strBytes ("DCS")

def SuffixData.CODE : List Nat := strBytes ("DSF")

def PrefixData.CODE : List Nat := strBytes ("DPF")

def Locator4Data.CODE : List Nat := strBytes ("DL4")

def Locator6Data.CODE : List Nat := strBytes ("DL6")

def PowerData.CODE : List Nat := strBytes ("DPD")

def NameData.CODE : List Nat := strBytes ("DNM")

def GeneratorFrequencyData.CODE : List Nat := strBytes ("DGF")

def ExternalReferenceFrequencyData.CODE : List Nat := strBytes ("DER")

def ProductModelNumberFactory.CODE : List Nat := strBytes ("FPN")

def HardwareVersionFactory.CODE : List Nat := strBytes ("FHV")

def HardwareRevisionFactory.CODE : List Nat := strBytes ("FHR")

def SoftwareVersionFactory.CODE : List Nat := strBytes ("FSV")

def SoftwareRevisionFactory.CODE : List Nat := strBytes ("FSR")

def ReferenceOscillatorFrequencyFactory.CODE : List Nat := strBytes ("FRF")

def LowPassFilterFactory.CODE : List Nat := strBytes ("FLP")

def Locator4GPS.CODE : List Nat := strBytes ("GL4")

def Locator6GPS.CODE : List Nat := strBytes ("GL6")

def TimeGPS.CODE : List Nat := strBytes ("GTM")

def LockStatusGPS.CODE : List Nat := strBytes ("GLC")

def SatelliteInfoGPS.CODE : List Nat := strBytes ("GSI")

def TransmitterFrequency.CODE : List Nat := strBytes ("TFQ")

def TransmitterStatus.CODE : List Nat := strBytes ("TON")

def MicrocontrollerPause.CODE : List Nat := strBytes ("MPS")

def MicrocontrollerInfo.CODE : List Nat := strBytes ("MIN")

def LowPassFilterSet.CODE : List Nat := strBytes ("LPI")

def MicrocontrollerVoltage.CODE : List Nat := strBytes ("MVC")

def TransmitterCurrentBand.CODE : List Nat := strBytes ("TBN")

def TransmitterWSPRSymbol.CODE : List Nat := strBytes ("TWS")

def TransmitterBandCycleComplete.CODE : List Nat := strBytes ("TCC")

/-! ### Per-code decoders (the `fn parse(command_string, args)` impls).
The Rust `command_string` parameter is used only inside error messages,
so the embedding drops it. -/

def CurrentModeCommand.parse (args : List Nat) : Except Err Response :=
  match parse_enum Mode.ofByte args with
  | .ok m => .ok (.CurrentModeCommand ⟨m⟩)
  | .error e => .error e

def CurrentReferenceCommand.parse (args : List Nat) : Except Err Response :=
  match parse_enum Reference.ofByte args with
  | .ok r => .ok (.CurrentReferenceCommand ⟨r⟩)
  | .error e => .error e

/-- `let minutes: u32 = parse_number(...)?; 60 * minutes as u64`
    (no overflow: `60 * (2^32 - 1) < 2^64`). -/
def TxPauseOption.parse (args : List Nat) : Except Err Response :=
  match parse_number 32 args with
  | .ok minutes => .ok (.TxPauseOption ⟨60 * minutes⟩)
  | .error e => .error e

def StartModeOption.parse (args : List Nat) : Except Err Response :=
  match parse_enum Mode.ofByte args with
  | .ok m => .ok (.StartModeOption ⟨m⟩)
  | .error e => .error e

/-- `ensure!(args.len() == 4)`; `band = parse_enum_from_number(&args[0..2])`;
    flag byte `args[3]` is `E` (enable) or `D` (disable); `args[2]` is
    ignored. -/
def BandTxEnable.parse (args : List Nat) : Except Err Response :=
  match args with
  | [b0, b1, _sep, flag] =>
    (parse_enum_from_number Band.ofNumber [b0, b1]).bind (fun band =>
      if flag = 69 then .ok (.BandTxEnable ⟨band, true⟩)       -- b'E'
      else if flag = 68 then .ok (.BandTxEnable ⟨band, false⟩) -- b'D'
      else .error .badFlag)
  | _ => .error .wrongLength

def LocationSourceOption.parse (args : List Nat) : Except Err Response :=
  match parse_enum LocationSource.ofByte args with
  | .ok l => .ok (.LocationSourceOption ⟨l⟩)
  | .error e => .error e

def LocatorPrecisionOption.parse (args : List Nat) : Except Err Response :=
  match parse_enum LocatorPrecision.ofByte args with
  | .ok l => .ok (.LocatorPrecisionOption ⟨l⟩)
  | .error e => .error e

def PowerEncodingOption.parse (args : List Nat) : Except Err Response :=
  match parse_enum PowerEncoding.ofByte args with
  | .ok p => .ok (.PowerEncodingOption ⟨p⟩)
  | .error e => .error e

/-- `parse_number::<u16>` then bucket `0..=4 / 5..=14 / 15 / 16 / 17`. -/
def TimeSlotOption.parse (args : List Nat) : Except Err Response :=
  match parse_number 16 args with
  | .error e => .error e
  | .ok n =>
    if n ≤ 4 then .ok (.TimeSlotOption ⟨.TenMinute⟩)
    else if n ≤ 14 then .ok (.TimeSlotOption ⟨.TwentyMinute⟩)
    else if n = 15 then .ok (.TimeSlotOption ⟨.BandCoordinated⟩)
    else if n = 16 then .ok (.TimeSlotOption ⟨.NoSchedule⟩)
    else if n = 17 then .ok (.TimeSlotOption ⟨.Tracker⟩)
    else .error .badTimeSlot

def PrefixSuffixOption.parse (args : List Nat) : Except Err Response :=
  match parse_enum PrefixSuffix.ofByte args with
  | .ok p => .ok (.PrefixSuffixOption ⟨p⟩)
  | .error e => .error e

def ConstellationOption.parse (args : List Nat) : Except Err Response :=
  match parse_enum Constellation.ofByte args with
  | .ok c => .ok (.ConstellationOption ⟨c⟩)
  | .error e => .error e

def CallSignData.parse (args : List Nat) : Except Err Response :=
  match ascii_bytes_to_string args with
  | .ok s => .ok (.CallSignData ⟨s⟩)
  | .error e => .error e

def SuffixData.parse (args : List Nat) : Except Err Response :=
  match ascii_bytes_to_string args with
  | .ok s => .ok (.SuffixData ⟨s⟩)
  | .error e => .error e

def PrefixData.parse (args : List Nat) : Except Err Response :=
  match ascii_bytes_to_string args with
  | .ok s => .ok (.PrefixData ⟨s⟩)
  | .error e => .error e

def Locator4Data.parse (args : List Nat) : Except Err Response :=
  match ascii_bytes_to_string args with
  | .ok s => .ok (.Locator4Data ⟨s⟩)
  | .error e => .error e

def Locator6Data.parse (args : List Nat) : Except Err Response :=
  match ascii_bytes_to_string args with
  | .ok s => .ok (.Locator6Data ⟨s⟩)
  | .error e => .error e

/-- `dbm: parse_number::<u8>(...)?`. -/
def PowerData.parse (args : List Nat) : Except Err Response :=
  match parse_number 8 args with
  | .ok n => .ok (.PowerData ⟨n⟩)
  | .error e => .error e

def NameData.parse (args : List Nat) : Except Err Response :=
  match ascii_bytes_to_string args with
  | .ok s => .ok (.NameData ⟨s⟩)
  | .error e => .error e

def GeneratorFrequencyData.parse (args : List Nat) : Except Err Response :=
  match parse_number 32 args with
  | .ok n => .ok (.GeneratorFrequencyData ⟨n⟩)
  | .error e => .error e

def ExternalReferenceFrequencyData.parse (args : List Nat) : Except Err Response :=
  match parse_number 32 args with
  | .ok n => .ok (.ExternalReferenceFrequencyData ⟨n⟩)
  | .error e => .error e

def ProductModelNumberFactory.parse (args : List Nat) : Except Err Response :=
  match parse_number 16 args with
  | .ok n => .ok (.ProductModelNumberFactory ⟨n⟩)
  | .error e => .error e

def HardwareVersionFactory.parse (args : List Nat) : Except Err Response :=
  match ascii_bytes_to_string args with
  | .ok s => .ok (.HardwareVersionFactory ⟨s⟩)
  | .error e => .error e

def HardwareRevisionFactory.parse (args : List Nat) : Except Err Response :=
  match ascii_bytes_to_string args with
  | .ok s => .ok (.HardwareRevisionFactory ⟨s⟩)
  | .error e => .error e

def SoftwareVersionFactory.parse (args : List Nat) : Except Err Response :=
  match ascii_bytes_to_string args with
  | .ok s => .ok (.SoftwareVersionFactory ⟨s⟩)
  | .error e => .error e

def SoftwareRevisionFactory.parse (args : List Nat) : Except Err Response :=
  match ascii_bytes_to_string args with
  | .ok s => .ok (.SoftwareRevisionFactory ⟨s⟩)
  | .error e => .error e

def ReferenceOscillatorFrequencyFactory.parse (args : List Nat) : Except Err Response :=
  match parse_number 32 args with
  | .ok n => .ok (.ReferenceOscillatorFrequencyFactory ⟨n⟩)
  | .error e => .error e

/-- `ensure!(args.len() == 4)`; `bank = parse_enum(&args[0..1])`;
    `band = parse_enum_from_number(&args[2..])`; `args[1]` is ignored. -/
def LowPassFilterFactory.parse (args : List Nat) : Except Err Response :=
  match args with
  | [b0, _sep, b2, b3] =>
    match parse_enum FilterBank.ofByte [b0] with
    | .error e => .error e
    | .ok fb =>
      match parse_enum_from_number Band.ofNumber [b2, b3] with
      | .error e => .error e
      | .ok band => .ok (.LowPassFilterFactory ⟨fb, band⟩)
  | _ => .error .wrongLength

def Locator4GPS.parse (args : List Nat) : Except Err Response :=
  match ascii_bytes_to_string args with
  | .ok s => .ok (.Locator4GPS ⟨s⟩)
  | .error e => .error e

def Locator6GPS.parse (args : List Nat) : Except Err Response :=
  match ascii_bytes_to_string args with
  | .ok s => .ok (.Locator6GPS ⟨s⟩)
  | .error e => .error e

def TimeGPS.parse (args : List Nat) : Except Err Response :=
  match ascii_bytes_to_string args with
  | .ok s => .ok (.TimeGPS ⟨s⟩)
  | .error e => .error e

def LockStatusGPS.parse (args : List Nat) : Except Err Response :=
  match parse_enum GpsLock.ofByte args with
  | .ok l => .ok (.LockStatusGPS ⟨l⟩)
  | .error e => .error e

def SatelliteInfoGPS.parse (args : List Nat) : Except Err Response :=
  match ascii_bytes_to_string args with
  | .ok s => .ok (.SatelliteInfoGPS ⟨s⟩)
  | .error e => .error e

def TransmitterFrequency.parse (args : List Nat) : Except Err Response :=
  match parse_number 64 args with
  | .ok n => .ok (.TransmitterFrequency ⟨n⟩)
  | .error e => .error e

/-- `ensure!(args.len() == 1)`; `T`/`F` on the single byte. -/
def TransmitterStatus.parse (args : List Nat) : Except Err Response :=
  match args with
  | [b] =>
    if b = 84 then .ok (.TransmitterStatus ⟨true⟩)        -- b'T'
    else if b = 70 then .ok (.TransmitterStatus ⟨false⟩)  -- b'F'
    else .error .badChar
  | _ => .error .wrongLength

/-- Placeholder decoder: ignores its arguments. -/
def MicrocontrollerPause.parse (_args : List Nat) : Except Err Response :=
  .ok (.MicrocontrollerPause ⟨⟩)

def MicrocontrollerInfo.parse (args : List Nat) : Except Err Response :=
  match ascii_bytes_to_string args with
  | .ok s => .ok (.MicrocontrollerInfo ⟨s⟩)
  | .error e => .error e

def LowPassFilterSet.parse (args : List Nat) : Except Err Response :=
  match parse_enum FilterBank.ofByte args with
  | .ok f => .ok (.LowPassFilterSet ⟨f⟩)
  | .error e => .error e

/-- `ascii_bytes_to_string(args)?.parse::<u32>()?` (no
    `parse_number`, so no explicit empty-args guard; the empty string
    fails the integer parse anyway). -/
def MicrocontrollerVoltage.parse (args : List Nat) : Except Err Response :=
  if args.all (· < 128) then
    match parseUnsigned 32 args with
    | some mv => .ok (.MicrocontrollerVoltage ⟨mv⟩)
    | none => .error .badNumber
  else .error .nonAscii

def TransmitterCurrentBand.parse (args : List Nat) : Except Err Response :=
  match parse_enum_from_number Band.ofNumber args with
  | .ok b => .ok (.TransmitterCurrentBand ⟨b⟩)
  | .error e => .error e

def TransmitterWSPRSymbol.parse (args : List Nat) : Except Err Response :=
  match ascii_bytes_to_string args with
  | .ok s => .ok (.TransmitterWSPRSymbol ⟨s⟩)
  | .error e => .error e

def TransmitterBandCycleComplete.parse (_args : List Nat) : Except Err Response :=
  .ok (.TransmitterBandCycleComplete ⟨⟩)

/-! ### Frame processing (`process_line`, `write_code`, `read_response`) -/

/-- Outcome of `process_line`: Rust may panic (out-of-bounds slice),
    return an error, or return a decoded `Response`. -/
inductive PResult
  | panic
  | err (e : Err)
  | ok (r : Response)
deriving DecidableEq, Repr

/-- `s.retain_mut(|c| c != &b'\n' && c != &b'\r')`. -/
def stripLine (s : List Nat) : List Nat :=
  s.filter (fun c => c ≠ 10 ∧ c ≠ 13)

/-- The registry `match code { ... }` of `process_line`, one arm per
    known 3-byte code, in source order; the catch-all arm is the
    unknown-response error. -/
def dispatch (code : List Nat) (args : List Nat) : Except Err Response :=
  if code = CurrentModeCommand.CODE then CurrentModeCommand.parse args
  else if code = CurrentReferenceCommand.CODE then CurrentReferenceCommand.parse args
  else if code = TxPauseOption.CODE then TxPauseOption.parse args
  else if code = StartModeOption.CODE then StartModeOption.parse args
  else if code = BandTxEnable.CODE then BandTxEnable.parse args
  else if code = LocationSourceOption.CODE then LocationSourceOption.parse args
  else if code = LocatorPrecisionOption.CODE then LocatorPrecisionOption.parse args
  else if code = PowerEncodingOption.CODE then PowerEncodingOption.parse args
  else if code = TimeSlotOption.CODE then TimeSlotOption.parse args
  else if code = PrefixSuffixOption.CODE then PrefixSuffixOption.parse args
  else if code = ConstellationOption.CODE then ConstellationOption.parse args
  else if code = CallSignData.CODE then CallSignData.parse args
  else if code = SuffixData.CODE then SuffixData.parse args
  else if code = PrefixData.CODE then PrefixData.parse args
  else if code = Locator4Data.CODE then Locator4Data.parse args
  else if code = Locator6Data.CODE then Locator6Data.parse args
  else if code = PowerData.CODE then PowerData.parse args
  else if code = NameData.CODE then NameData.parse args
  else if code = GeneratorFrequencyData.CODE then GeneratorFrequencyData.parse args
  else if code = ExternalReferenceFrequencyData.CODE then
    ExternalReferenceFrequencyData.parse args
  else if code = ProductModelNumberFactory.CODE then ProductModelNumberFactory.parse args
  else if code = HardwareVersionFactory.CODE then HardwareVersionFactory.parse args
  else if code = HardwareRevisionFactory.CODE then HardwareRevisionFactory.parse args
  else if code = SoftwareVersionFactory.CODE then SoftwareVersionFactory.parse args
  else if code = SoftwareRevisionFactory.CODE then SoftwareRevisionFactory.parse args
  else if code = ReferenceOscillatorFrequencyFactory.CODE then
    ReferenceOscillatorFrequencyFactory.parse args
  else if code = LowPassFilterFactory.CODE then LowPassFilterFactory.parse args
  else if code = Locator4GPS.CODE then Locator4GPS.parse args
  else if code = Locator6GPS.CODE then Locator6GPS.parse args
  else if code = TimeGPS.CODE then TimeGPS.parse args
  else if code = LockStatusGPS.CODE then LockStatusGPS.parse args
  else if code = SatelliteInfoGPS.CODE then SatelliteInfoGPS.parse args
  else if code = TransmitterFrequency.CODE then TransmitterFrequency.parse args
  else if code = TransmitterStatus.CODE then TransmitterStatus.parse args
  else if code = MicrocontrollerPause.CODE then MicrocontrollerPause.parse args
  else if code = MicrocontrollerInfo.CODE then MicrocontrollerInfo.parse args
  else if code = LowPassFilterSet.CODE then LowPassFilterSet.parse args
  else if code = MicrocontrollerVoltage.CODE then MicrocontrollerVoltage.parse args
  else if code = TransmitterCurrentBand.CODE then TransmitterCurrentBand.parse args
  else if code = TransmitterWSPRSymbol.CODE then TransmitterWSPRSymbol.parse args
  else if code = TransmitterBandCycleComplete.CODE then
    TransmitterBandCycleComplete.parse args
  else .error .unknownCode

/-- The registry's closed set of codes: the 41 match arms of
    `process_line`, in source order. -/
def registryCodes : List (List Nat) :=
  [CurrentModeCommand.CODE, CurrentReferenceCommand.CODE, TxPauseOption.CODE,
   StartModeOption.CODE, BandTxEnable.CODE, LocationSourceOption.CODE,
   LocatorPrecisionOption.CODE, PowerEncodingOption.CODE, TimeSlotOption.CODE,
   PrefixSuffixOption.CODE, ConstellationOption.CODE, CallSignData.CODE,
   SuffixData.CODE, PrefixData.CODE, Locator4Data.CODE, Locator6Data.CODE,
   PowerData.CODE, NameData.CODE, GeneratorFrequencyData.CODE,
   ExternalReferenceFrequencyData.CODE, ProductModelNumberFactory.CODE,
   HardwareVersionFactory.CODE, HardwareRevisionFactory.CODE,
   SoftwareVersionFactory.CODE, SoftwareRevisionFactory.CODE,
   ReferenceOscillatorFrequencyFactory.CODE, LowPassFilterFactory.CODE,
   Locator4GPS.CODE, Locator6GPS.CODE, TimeGPS.CODE, LockStatusGPS.CODE,
   SatelliteInfoGPS.CODE, TransmitterFrequency.CODE, TransmitterStatus.CODE,
   MicrocontrollerPause.CODE, MicrocontrollerInfo.CODE, LowPassFilterSet.CODE,
   MicrocontrollerVoltage.CODE, TransmitterCurrentBand.CODE,
   TransmitterWSPRSymbol.CODE, TransmitterBandCycleComplete.CODE]

/-- `pub fn process_line(mut s: Vec<u8>) -> Result<Response>`.

    Rust order of operations: strip every `\n`/`\r` byte; error on an
    empty result; `ensure!(s.len() >= 5)`; slice `command = &s[..5]`
    and `code = &s[1..4]` (always in bounds); run
    `ascii_bytes_to_string(command)?` (early return on non-ASCII);
    then slice `args = &s[6..]` — which PANICS when `s.len() == 5`
    (the length guard is off by one) — and dispatch on the code. -/
def process_line (input : List Nat) : PResult :=
  let s := stripLine input
  if s.isEmpty then .err .emptyLine
  else if s.length < 5 then .err .frameTooShort
  else
    let command := s.take 5
    let code := (s.drop 1).take 3
    match ascii_bytes_to_string command with
    | .error e => .err e
    | .ok _ =>
      if s.length = 5 then .panic  -- `&s[6..]` with `6 > s.len()`
      else
        match dispatch code (s.drop 6) with
        | .ok r => .ok r
        | .error e => .err e

/-- The byte sequence emitted by `write_code`: `\n`, `[`, the code,
    `]`, `\n`, in that order. -/
def write_code (code : List Nat) : List Nat :=
  [10] ++ [91] ++ code ++ [93] ++ [10]

/-- One step of `ZachtekDevice::read_response`, byte by byte over the
    remaining input: `\n` with a non-empty buffer hands the buffer to
    `process_line`; `\n`/`\r` otherwise are discarded; any other byte
    is pushed onto the buffer.  Exhausting the input models the serial
    read timeout. -/
def readAux (buf : List Nat) : List Nat → PResult
  | [] => .err .timeout
  | byte :: rest =>
    if byte = 10 ∧ buf ≠ [] then process_line buf
    else if byte = 10 ∨ byte = 13 then readAux buf rest
    else readAux (buf ++ [byte]) rest

/-- `ZachtekDevice::read_response`, starting from an empty line buffer. -/
def read_response (input : List Nat) : PResult :=
  readAux [] input

deriving instance DecidableEq for Except

/-! ### Helper lemmas about the numeric parser and the band table -/


theorem rustParseNat_ne_nil {s : List Nat} {n : Nat} (h : rustParseNat s = some n) :
    s ≠ [] := by
  intro hs
  subst hs
  simp [rustParseNat, stripPlus] at h

theorem isDigit_lt_128 {d : Nat} (h : isDigit d = true) : d < 128 := by
  simp only [isDigit, Bool.and_eq_true, decide_eq_true_eq] at h
  omega

theorem rustParseNat_ascii {s : List Nat} {n : Nat} (h : rustParseNat s = some n) :
    s.all (· < 128) = true := by
  unfold rustParseNat at h
  split_ifs at h with hc
  have hdig : ∀ y ∈ stripPlus s, y < 128 := fun y hy =>
    isDigit_lt_128 (List.all_eq_true.mp hc.2 y hy)
  rw [List.all_eq_true]
  intro x hx
  refine decide_eq_true ?_
  cases s with
  | nil => simp at hx
  | cons b rest =>
    rcases List.mem_cons.mp hx with rfl | hx
    · by_cases hb : x = 43
      · omega
      · exact hdig x (by simp [stripPlus, hb])
    · by_cases hb : b = 43
      · exact hdig x (by simp [stripPlus, hb, hx])
      · exact hdig x (by simp [stripPlus, hb]; exact Or.inr hx)

theorem parse_number_of_rust {w : Nat} {s : List Nat} {n : Nat}
    (h : rustParseNat s = some n) :
    parse_number w s = if n < 2 ^ w then .ok n else .error .badNumber := by
  have hne := rustParseNat_ne_nil h
  have ha := rustParseNat_ascii h
  have hie : s.isEmpty = false := by
    cases s with
    | nil => exact absurd rfl hne
    | cons b rest => rfl
  unfold parse_number
  rw [hie, ha]
  simp only [Bool.false_eq_true, if_false, if_true]
  unfold parseUnsigned
  rw [h]
  by_cases hn : n < 2 ^ w <;> simp [hn]

theorem band_ofNumber_isSome {n : Nat} (h : n ≤ 15 ∨ n = 98 ∨ n = 99) :
    (Band.ofNumber n).isSome = true := by
  rcases h with h | h | h
  · interval_cases n <;> decide
  · subst h; decide
  · subst h; decide

theorem band_ofNumber_total {n : Nat} (h : n ≤ 15 ∨ n = 98 ∨ n = 99) :
    ∃ b, Band.ofNumber n = some b :=
  Option.isSome_iff_exists.mp (band_ofNumber_isSome h)

theorem band_ofNumber_none {n : Nat} (h : Band.ofNumber n = none) :
    ¬(n ≤ 15 ∨ n = 98 ∨ n = 99) := by
  intro hn
  rcases band_ofNumber_total hn with ⟨b, hb⟩
  rw [h] at hb
  exact Option.noConfusion hb

theorem band_ofNumber_none_of_ge_100 {n : Nat} (h : 100 ≤ n) :
    Band.ofNumber n = none := by
  unfold Band.ofNumber
  iterate 18 rw [if_neg (by omega)]

theorem band_ofNumber_isSome_range {n : Nat} (h : (Band.ofNumber n).isSome = true) :
    n ≤ 15 ∨ n = 98 ∨ n = 99 := by
  by_contra hn
  rcases Nat.lt_or_ge n 100 with h100 | h100
  · interval_cases n <;> first | exact absurd h (by decide) | omega
  · rw [band_ofNumber_none_of_ge_100 h100] at h
    exact Bool.noConfusion h

theorem band_ofNumber_some_range {n : Nat} {b : Band} (h : Band.ofNumber n = some b) :
    n ≤ 15 ∨ n = 98 ∨ n = 99 :=
  band_ofNumber_isSome_range (by rw [h]; rfl)

/-- Claim C1 (code bug): the claim says `process_line` never panics and
    dispatches every stripped line of length at least 5, but the real
    frame `\x7bTCC\x7d` (length exactly 5) hits the out-of-bounds
    slice `&s[6..]` behind the `ensure!(s.len() >= 5)` guard and
    panics; a line shorter than 5 bytes does yield the too-short
    error as claimed. -/
theorem process_line_tcc_panics :
    process_line (strBytes ("\x7bTCC\x7d\n")) = PResult.panic ∧
    process_line (strBytes ("\x7bCC\x7d\n")) = .err .frameTooShort := by decide

/-- Claim C5: the outbound query frame for code `CCM` is exactly the
    byte sequence LF `[CCM]` LF, and stripping terminators then taking
    bytes [1,4) of the stripped line recovers the 3-byte code `CCM`. -/
theorem write_code_roundtrip_ccm :
    write_code CurrentModeCommand.CODE = strBytes ("\n[CCM]\n") ∧
    ((stripLine (write_code CurrentModeCommand.CODE)).drop 1).take 3 =
      CurrentModeCommand.CODE := by decide

/-- Claim C6: reading the byte stream LF LF `\x7bCCM\x7d` SP `S` LF
    yields exactly one decoded `CurrentModeCommand Sig` with no
    empty-frame error; a `\n` or `\r` with an empty buffer is
    discarded, and only a `\n` with a non-empty buffer terminates a
    frame (handing the buffer to `process_line`). -/
theorem read_response_absorbs_terminators :
    read_response (strBytes ("\n\n\x7bCCM\x7d S\n")) =
      .ok (.CurrentModeCommand ⟨.Sig⟩) ∧
    (∀ rest, readAux [] (10 :: rest) = readAux [] rest) ∧
    (∀ rest, readAux [] (13 :: rest) = readAux [] rest) ∧
    (∀ buf rest, buf ≠ [] → readAux buf (10 :: rest) = process_line buf) := by
  refine ⟨by decide, ?_, ?_, ?_⟩
  · intro rest; simp [readAux]
  · intro rest; simp [readAux]
  · intro buf rest h; simp [readAux, h]

theorem read_response_absorbs_terminators_witness :
    readAux [83] [10] = process_line [83] :=
  read_response_absorbs_terminators.2.2.2 [83] [] (by decide)

/-- Claim C8: every OTP payload parsing as an unsigned decimal number
    of minutes m (representable in the u32 the code parses into)
    decodes to a duration of exactly 60 * m seconds. -/
theorem otp_duration_scaling (args : List Nat) (m : Nat)
    (hv : rustParseNat args = some m) (hm : m < 2 ^ 32) :
    TxPauseOption.parse args = .ok (.TxPauseOption ⟨60 * m⟩) := by
  unfold TxPauseOption.parse
  rw [parse_number_of_rust hv, if_pos hm]

theorem otp_duration_scaling_witness :
    TxPauseOption.parse (strBytes ("0000500")) = .ok (.TxPauseOption ⟨30000⟩) :=
  otp_duration_scaling (strBytes ("0000500")) 500 (by decide) (by norm_num)

/-- Claim C10: the documented per-code range limits are not enforced:
    an OTP payload above 99999 minutes still decodes to 60 * m
    seconds, and a DPD payload above 60 (up to the u8 limit 255) still
    decodes to that dBm value. -/
theorem range_limits_not_enforced :
    (∀ args m, rustParseNat args = some m → m < 2 ^ 32 → 99999 < m →
      TxPauseOption.parse args = .ok (.TxPauseOption ⟨60 * m⟩)) ∧
    (∀ args n, rustParseNat args = some n → n ≤ 255 → 60 < n →
      PowerData.parse args = .ok (.PowerData ⟨n⟩)) := by
  constructor
  · intro args m hv hm _
    unfold TxPauseOption.parse
    rw [parse_number_of_rust hv, if_pos hm]
  · intro args n hv hn _
    unfold PowerData.parse
    rw [parse_number_of_rust hv, if_pos (by omega : n < 2 ^ 8)]

theorem range_limits_not_enforced_witness :
    TxPauseOption.parse (strBytes ("0100000")) = .ok (.TxPauseOption ⟨6000000⟩) ∧
    PowerData.parse (strBytes ("255")) = .ok (.PowerData ⟨255⟩) :=
  ⟨range_limits_not_enforced.1 _ 100000 (by decide) (by norm_num) (by norm_num),
   range_limits_not_enforced.2 _ 255 (by decide) (by norm_num) (by norm_num)⟩

/-- Claim C2: an OTS payload parsing as unsigned decimal n decodes to
    TenMinute iff n in [0,4], TwentyMinute iff n in [5,14],
    BandCoordinated iff n = 15, NoSchedule iff n = 16, Tracker iff
    n = 17, and any n at least 18 is an error. -/
theorem ots_bucketing (args : List Nat) (n : Nat) (h : rustParseNat args = some n) :
    (TimeSlotOption.parse args = .ok (.TimeSlotOption ⟨.TenMinute⟩) ↔ n ≤ 4) ∧
    (TimeSlotOption.parse args = .ok (.TimeSlotOption ⟨.TwentyMinute⟩) ↔ 5 ≤ n ∧ n ≤ 14) ∧
    (TimeSlotOption.parse args = .ok (.TimeSlotOption ⟨.BandCoordinated⟩) ↔ n = 15) ∧
    (TimeSlotOption.parse args = .ok (.TimeSlotOption ⟨.NoSchedule⟩) ↔ n = 16) ∧
    (TimeSlotOption.parse args = .ok (.TimeSlotOption ⟨.Tracker⟩) ↔ n = 17) ∧
    (18 ≤ n → ∃ e, TimeSlotOption.parse args = .error e) := by
  by_cases hn : n < 2 ^ 16
  · have hpn : parse_number 16 args = .ok n := by
      rw [parse_number_of_rust h, if_pos hn]
    have heq : TimeSlotOption.parse args =
        (if n ≤ 4 then .ok (.TimeSlotOption ⟨.TenMinute⟩)
         else if n ≤ 14 then .ok (.TimeSlotOption ⟨.TwentyMinute⟩)
         else if n = 15 then .ok (.TimeSlotOption ⟨.BandCoordinated⟩)
         else if n = 16 then .ok (.TimeSlotOption ⟨.NoSchedule⟩)
         else if n = 17 then .ok (.TimeSlotOption ⟨.Tracker⟩)
         else .error .badTimeSlot) := by
      unfold TimeSlotOption.parse
      rw [hpn]
    rw [heq]
    split_ifs with h1 h2 h3 h4 h5 <;>
      refine ⟨?_, ?_, ?_, ?_, ?_, ?_⟩ <;> simp_all <;> omega
  · have hpn : parse_number 16 args = .error .badNumber := by
      rw [parse_number_of_rust h, if_neg hn]
    have heq : TimeSlotOption.parse args = .error .badNumber := by
      unfold TimeSlotOption.parse
      rw [hpn]
    rw [heq]
    refine ⟨?_, ?_, ?_, ?_, ?_, fun _ => ⟨.badNumber, rfl⟩⟩ <;>
      (constructor
       · intro hx
         exact absurd hx (by simp)
       · intro hx
         omega)

theorem ots_bucketing_witness :
    TimeSlotOption.parse (strBytes ("04")) = .ok (.TimeSlotOption ⟨.TenMinute⟩) ∧
    ∃ e, TimeSlotOption.parse (strBytes ("18")) = .error e :=
  ⟨(ots_bucketing (strBytes ("04")) 4 (by decide)).1.mpr (by norm_num),
   (ots_bucketing (strBytes ("18")) 18 (by decide)).2.2.2.2.2 (by norm_num)⟩

/-- Claim C3 counterexample: the payload `256` (an integer in [0,999]
    outside the Band table) fails with the number-parse error, not
    with the unrecognized-enum-value error the claim names. -/
theorem band_enum_error_kind_counterexample :
    parse_enum_from_number Band.ofNumber (strBytes ("256")) = .error .badNumber ∧
    (Except.error .badNumber : Except Err Band) ≠ .error .unrecognizedEnumValue := by
  decide

/-- Claim C3 (amended): for a Band numeric payload of 1-3 ASCII
    digits with value n, decoding succeeds exactly for
    n in 0-15, 98, 99 (yielding the table's variant, never a
    default); any other n up to 255 fails with the
    unrecognized-enum-value error, and n in [256,999] fails with the
    number-parse (u8 overflow) error. -/
theorem band_numeric_decode_amended (args : List Nat) (n : Nat)
    (hlen : 1 ≤ args.length ∧ args.length ≤ 3) (hdig : args.all isDigit = true)
    (hv : rustParseNat args = some n) :
    ((∃ b, parse_enum_from_number Band.ofNumber args = .ok b) ↔
      (n ≤ 15 ∨ n = 98 ∨ n = 99)) ∧
    (∀ b, parse_enum_from_number Band.ofNumber args = .ok b →
      Band.ofNumber n = some b) ∧
    (n ≤ 255 → Band.ofNumber n = none →
      parse_enum_from_number Band.ofNumber args = .error .unrecognizedEnumValue) ∧
    (256 ≤ n →
      parse_enum_from_number Band.ofNumber args = .error .badNumber) := by
  have hne : args.isEmpty = false := by
    cases args with
    | nil => exact absurd hlen.1 (by norm_num)
    | cons b rest => rfl
  have hguard : ¬(args.isEmpty = true ∨ 3 < args.length) := by
    rw [hne]
    simp
    omega
  by_cases h256 : n < 2 ^ 8
  · have hpn : parse_number 8 args = .ok n := by
      rw [parse_number_of_rust hv, if_pos h256]
    have heq : parse_enum_from_number Band.ofNumber args =
        enumFromValue (Band.ofNumber n) := by
      unfold parse_enum_from_number
      rw [if_neg hguard, hpn]
    refine ⟨⟨?_, ?_⟩, ?_, ?_, ?_⟩
    · rintro ⟨b, hb⟩
      rw [heq] at hb
      cases hB : Band.ofNumber n with
      | none => rw [hB] at hb; simp [enumFromValue] at hb
      | some b2 => exact band_ofNumber_some_range hB
    · intro hset
      obtain ⟨b, hb⟩ := band_ofNumber_total hset
      refine ⟨b, ?_⟩
      rw [heq, hb]
      rfl
    · intro b hb
      rw [heq] at hb
      cases hB : Band.ofNumber n with
      | none => rw [hB] at hb; simp [enumFromValue] at hb
      | some b2 =>
        rw [hB] at hb
        have hb2 : b2 = b := Except.ok.inj hb
        rw [hb2]
    · intro _ hnone
      rw [heq, hnone]
      rfl
    · intro hge
      exact absurd h256 (by omega)
  · have hpn : parse_number 8 args = .error .badNumber := by
      rw [parse_number_of_rust hv, if_neg h256]
    have heq : parse_enum_from_number Band.ofNumber args = .error .badNumber := by
      unfold parse_enum_from_number
      rw [if_neg hguard, hpn]
    refine ⟨⟨?_, ?_⟩, ?_, ?_, fun _ => heq⟩
    · rintro ⟨b, hb⟩
      rw [heq] at hb
      exact Except.noConfusion hb
    · intro hset
      exfalso
      rcases hset with hs | hs | hs <;> omega
    · intro b hb
      rw [heq] at hb
      exact Except.noConfusion hb
    · intro hle _
      exact absurd hle (by omega)

theorem band_numeric_decode_amended_witness :
    ∃ b, parse_enum_from_number Band.ofNumber (strBytes ("098")) = .ok b :=
  (band_numeric_decode_amended (strBytes ("098")) 98 (by decide) (by decide)
    (by decide)).1.mpr (by norm_num)

theorem enumFromByte_none {T : Type} :
    enumFromByte (none : Option T) = .error .unrecognizedEnumByte := rfl

theorem enumFromByte_some {T : Type} (e : T) : enumFromByte (some e) = .ok e := rfl

theorem parse_enum_single {T : Type} (ofByte : Nat → Option T) (b : Nat) :
    parse_enum ofByte [b] = enumFromByte (ofByte b) := rfl

theorem ccm_parse_map (args : List Nat) :
    CurrentModeCommand.parse args =
      (parse_enum Mode.ofByte args).map (fun m => Response.CurrentModeCommand ⟨m⟩) := by
  unfold CurrentModeCommand.parse
  cases parse_enum Mode.ofByte args <;> rfl

/-- Claim C7: the single-byte enum decoder behind CCM requires
    payload length exactly 1 (wrong-length error otherwise), maps the
    byte through Mode's fixed table (unrecognized-byte error on a
    miss), never yields a default variant, and decodes payload `S` to
    Mode.Sig. -/
theorem ccm_single_byte_enum (args : List Nat) :
    (args.length ≠ 1 → CurrentModeCommand.parse args = .error .wrongLength) ∧
    (∀ b, args = [b] → Mode.ofByte b = none →
      CurrentModeCommand.parse args = .error .unrecognizedEnumByte) ∧
    (∀ b m, args = [b] → Mode.ofByte b = some m →
      CurrentModeCommand.parse args = .ok (.CurrentModeCommand ⟨m⟩)) ∧
    (∀ r, CurrentModeCommand.parse args = .ok r →
      ∃ b m, args = [b] ∧ Mode.ofByte b = some m ∧ r = .CurrentModeCommand ⟨m⟩) ∧
    CurrentModeCommand.parse (strBytes ("S")) = .ok (.CurrentModeCommand ⟨.Sig⟩) := by
  refine ⟨?_, ?_, ?_, ?_, by decide⟩
  · intro h
    cases args with
    | nil => rfl
    | cons a t =>
      cases t with
      | nil => exact absurd rfl h
      | cons c u => rfl
  · rintro b rfl hb
    rw [ccm_parse_map, parse_enum_single, hb, enumFromByte_none]
    rfl
  · rintro b m rfl hm
    rw [ccm_parse_map, parse_enum_single, hm, enumFromByte_some]
    rfl
  · intro r hr
    cases args with
    | nil => exact Except.noConfusion hr
    | cons a t =>
      cases t with
      | nil =>
        cases hB : Mode.ofByte a with
        | none =>
          rw [ccm_parse_map, parse_enum_single, hB, enumFromByte_none] at hr
          exact Except.noConfusion hr
        | some m =>
          rw [ccm_parse_map, parse_enum_single, hB, enumFromByte_some] at hr
          refine ⟨a, m, rfl, hB, ?_⟩
          have := Except.ok.inj hr
          exact this.symm
      | cons c u => exact Except.noConfusion hr

theorem ccm_single_byte_enum_witness :
    CurrentModeCommand.parse [88, 89] = .error .wrongLength ∧
    CurrentModeCommand.parse [90] = .error .unrecognizedEnumByte :=
  ⟨(ccm_single_byte_enum [88, 89]).1 (by decide),
   (ccm_single_byte_enum [90]).2.1 90 rfl (by decide)⟩

theorem obd_parse_four (b0 b1 sep flag : Nat) :
    BandTxEnable.parse [b0, b1, sep, flag] =
      (parse_enum_from_number Band.ofNumber [b0, b1]).bind (fun band =>
        if flag = 69 then .ok (.BandTxEnable ⟨band, true⟩)
        else if flag = 68 then .ok (.BandTxEnable ⟨band, false⟩)
        else .error .badFlag) := rfl

/-- Claim C9: OBD decoding succeeds only on 4-byte payloads; bytes
    [0,2) are the 2-digit band number, byte 2 is an ignored
    separator, and byte 3 must be `E` (enabled) or `D` (disabled);
    any other length or flag byte is an error, never a default. -/
theorem obd_composite (args : List Nat) :
    (args.length ≠ 4 → BandTxEnable.parse args = .error .wrongLength) ∧
    (∀ b0 b1 sep flag, args = [b0, b1, sep, flag] →
      (∀ band, parse_enum_from_number Band.ofNumber [b0, b1] = .ok band →
        (flag = 69 → BandTxEnable.parse args = .ok (.BandTxEnable ⟨band, true⟩)) ∧
        (flag = 68 → BandTxEnable.parse args = .ok (.BandTxEnable ⟨band, false⟩)) ∧
        (flag ≠ 69 → flag ≠ 68 → BandTxEnable.parse args = .error .badFlag)) ∧
      (∀ e, parse_enum_from_number Band.ofNumber [b0, b1] = .error e →
        BandTxEnable.parse args = .error e)) ∧
    (∀ r, BandTxEnable.parse args = .ok r →
      args.length = 4 ∧
      ∃ b0 b1 sep flag band, args = [b0, b1, sep, flag] ∧
        parse_enum_from_number Band.ofNumber [b0, b1] = .ok band ∧
        ((flag = 69 ∧ r = .BandTxEnable ⟨band, true⟩) ∨
         (flag = 68 ∧ r = .BandTxEnable ⟨band, false⟩))) := by
  refine ⟨?_, ?_, ?_⟩
  · intro h
    cases args with
    | nil => rfl
    | cons a t =>
      cases t with
      | nil => rfl
      | cons b t2 =>
        cases t2 with
        | nil => rfl
        | cons c t3 =>
          cases t3 with
          | nil => rfl
          | cons d t4 =>
            cases t4 with
            | nil => exact absurd rfl h
            | cons e t5 => rfl
  · rintro b0 b1 sep flag rfl
    constructor
    · intro band hband
      refine ⟨fun hE => ?_, fun hD => ?_, fun hne hnd => ?_⟩
      · subst hE
        rw [obd_parse_four, hband]
        simp [Except.bind]
      · subst hD
        rw [obd_parse_four, hband]
        simp [Except.bind]
      · rw [obd_parse_four, hband]
        simp [Except.bind, hne, hnd]
    · intro e he
      rw [obd_parse_four, he]
      rfl
  · intro r hr
    cases args with
    | nil => exact Except.noConfusion hr
    | cons a t =>
      cases t with
      | nil => exact Except.noConfusion hr
      | cons b t2 =>
        cases t2 with
        | nil => exact Except.noConfusion hr
        | cons c t3 =>
          cases t3 with
          | nil => exact Except.noConfusion hr
          | cons d t4 =>
            cases t4 with
            | cons e t5 => exact Except.noConfusion hr
            | nil =>
              rw [obd_parse_four] at hr
              cases hP : parse_enum_from_number Band.ofNumber [a, b] with
              | error e =>
                rw [hP] at hr
                exact Except.noConfusion hr
              | ok band =>
                rw [hP] at hr
                simp only [Except.bind] at hr
                split_ifs at hr with h69 h68
                · exact ⟨rfl, a, b, c, d, band, rfl, hP,
                    Or.inl ⟨h69, (Except.ok.inj hr).symm⟩⟩
                · exact ⟨rfl, a, b, c, d, band, rfl, hP,
                    Or.inr ⟨h68, (Except.ok.inj hr).symm⟩⟩

theorem obd_composite_witness :
    BandTxEnable.parse (strBytes ("0")) = .error .wrongLength ∧
    BandTxEnable.parse (strBytes ("09 E")) = .ok (.BandTxEnable ⟨.B12m, true⟩) ∧
    BandTxEnable.parse (strBytes ("09 X")) = .error .badFlag :=
  ⟨(obd_composite (strBytes ("0"))).1 (by decide),
   (((obd_composite (strBytes ("09 E"))).2.1 48 57 32 69 rfl).1 .B12m
      (by decide)).1 rfl,
   (((obd_composite (strBytes ("09 X"))).2.1 48 57 32 88 rfl).1 .B12m
      (by decide)).2.2 (by decide) (by decide)⟩

theorem dispatch_unknown (code args : List Nat) (h : code ∉ registryCodes) :
    dispatch code args = .error .unknownCode := by
  simp only [registryCodes, List.mem_cons, List.not_mem_nil, or_false, not_or] at h
  obtain ⟨h1, h2, h3, h4, h5, h6, h7, h8, h9, h10, h11, h12, h13, h14, h15, h16,
    h17, h18, h19, h20, h21, h22, h23, h24, h25, h26, h27, h28, h29, h30, h31,
    h32, h33, h34, h35, h36, h37, h38, h39, h40, h41⟩ := h
  unfold dispatch
  rw [if_neg h1, if_neg h2, if_neg h3, if_neg h4, if_neg h5, if_neg h6,
    if_neg h7, if_neg h8, if_neg h9, if_neg h10, if_neg h11, if_neg h12,
    if_neg h13, if_neg h14, if_neg h15, if_neg h16, if_neg h17, if_neg h18,
    if_neg h19, if_neg h20, if_neg h21, if_neg h22, if_neg h23, if_neg h24,
    if_neg h25, if_neg h26, if_neg h27, if_neg h28, if_neg h29, if_neg h30,
    if_neg h31, if_neg h32, if_neg h33, if_neg h34, if_neg h35, if_neg h36,
    if_neg h37, if_neg h38, if_neg h39, if_neg h40, if_neg h41]

/-- Claim C4: a well-formed line whose 3-byte code is not in the
    registry's closed set decodes to the unknown-code error rather
    than being ignored or guessed, and lines are decoded
    independently, one call of `process_line` each. -/
theorem unknown_code_rejected :
    (∀ s, 6 ≤ (stripLine s).length →
      ((stripLine s).take 5).all (· < 128) = true →
      ((stripLine s).drop 1).take 3 ∉ registryCodes →
      process_line s = .err .unknownCode) ∧
    (∀ (lines : List (List Nat)) (i : Nat),
      (lines.map process_line)[i]? = lines[i]?.map process_line) := by
  constructor
  · intro s h6 ha hcode
    have hne : (stripLine s).isEmpty = false := by
      cases hs : stripLine s with
      | nil => rw [hs] at h6; simp at h6
      | cons a t => rfl
    have haok : ascii_bytes_to_string ((stripLine s).take 5) =
        .ok ((stripLine s).take 5) := by
      unfold ascii_bytes_to_string
      rw [if_pos ha]
    have hd : dispatch (((stripLine s).drop 1).take 3) ((stripLine s).drop 6) =
        .error .unknownCode := dispatch_unknown _ _ hcode
    simp only [process_line]
    rw [hne]
    simp only [Bool.false_eq_true, if_false]
    rw [if_neg (show ¬(stripLine s).length < 5 by omega)]
    rw [haok]
    rw [if_neg (show ¬(stripLine s).length = 5 by omega)]
    rw [hd]
  · intro lines i
    simp [List.getElem?_map]

theorem unknown_code_rejected_witness :
    process_line (strBytes ("\x7bZZZ\x7d X")) = .err .unknownCode :=
  unknown_code_rejected.1 (strBytes ("\x7bZZZ\x7d X")) (by decide) (by decide)
    (by decide)
